import Mathlib

/-!
Verification of the MaxPool node shape-inference contract of the
`pyngraph` repository.

The repository's sources under study expose `ngraph::op::MaxPool` to
Python through a pybind11 registration (`src/pyngraph/ops/max_pool.cpp`).
The underlying C++ shape-inference code (`ngraph/ops/max_pool.hpp`) is not
part of the analysed sources, so the constructor semantics below are
modelled from the specification; the pybind11 registration itself is
embedded from the source file.
-/

set_option autoImplicit false

namespace PyNGraph

/-- A `Shape` is an ordered sequence of non-negative axis sizes. -/
abbrev Shape := List Nat

/-- `Strides` is an ordered sequence of per-spatial-axis step sizes. -/
abbrev Strides := List Nat

/-- A graph node: all that matters to MaxPool construction is the
upstream node's declared output shape. -/
structure Node where
  output_shape : Shape
deriving DecidableEq, Repr

/-- Modelled from the spec: the error taxonomy of §7 for MaxPool
construction failures (the C++ implementation of
`ngraph::op::MaxPool` is not among the analysed sources). -/
inductive MaxPoolError where
  | InsufficientInputRank
  | RankMismatch
  | NonPositiveParameter
  | WindowExceedsInput
deriving DecidableEq, Repr

/-- A successfully constructed MaxPool node: the input node it owns, its
parameters, and its derived output shape. -/
structure MaxPoolNode where
  input : Node
  window_shape : Shape
  window_movement_strides : Strides
  output_shape : Shape
deriving DecidableEq, Repr

/-- Modelled from the spec: the spatial part of the derived output shape,
`output_spatial[i] = floor((input_spatial[i] - window_shape[i]) / stride[i]) + 1`
(§4.1 of the spec; the C++ shape-inference body is not among the analysed
sources). -/
def poolSpatial (spatial w s : List Nat) : List Nat :=
  List.zipWith (fun p st => (p.1 - p.2) / st + 1) (spatial.zip w) s

/-- Modelled from the spec: the full derived output shape — batch and
channel axes pass through, spatial axes are pooled (§4.1). -/
def poolOutputShape (inS : Shape) (w : Shape) (s : Strides) : Shape :=
  inS.take 2 ++ poolSpatial (inS.drop 2) w s

/-- Modelled from the spec: the primary constructor
`construct(input, window_shape, window_movement_strides)` of
`ngraph::op::MaxPool`, whose C++ body is not among the analysed sources.
Validation happens in the fixed order of §4.1/§7: input rank ≥ 3, then
window rank, then stride rank, then stride positivity, then window
positivity and window-fits-input; on success the node stores the derived
output shape. -/
def construct (input : Node) (w : Shape) (s : Strides) :
    Except MaxPoolError MaxPoolNode :=
  if input.output_shape.length < 3 then
    .error .InsufficientInputRank
  else if w.length ≠ input.output_shape.length - 2 then
    .error .RankMismatch
  else if s.length ≠ input.output_shape.length - 2 then
    .error .RankMismatch
  else if s.any (· = 0) then
    .error .NonPositiveParameter
  else if w.any (· = 0) then
    .error .NonPositiveParameter
  else if ((input.output_shape.drop 2).zip w).any (fun p => p.1 < p.2) then
    .error .WindowExceedsInput
  else
    .ok { input := input
          window_shape := w
          window_movement_strides := s
          output_shape := poolOutputShape input.output_shape w s }

/-- Modelled from the spec: the convenience overload
`construct(input, window_shape)` — equivalent to the primary constructor
with strides defaulted to all ones of the same rank as `window_shape`
(§4.1). -/
def constructDefault (input : Node) (w : Shape) :
    Except MaxPoolError MaxPoolNode :=
  construct input w (List.replicate w.length 1)

/-- Argument types appearing in the pybind11 `py::init` signatures of
`src/pyngraph/ops/max_pool.cpp`. -/
inductive CppArgType where
  | constSharedPtrNodeRef
  | constShapeRef
  | constStridesRef
deriving DecidableEq, Repr

/-- A pybind11 class registration: the exposed class name, its holder
type, its declared base class, the `py::init` constructor signatures it
binds, and any further bound methods. -/
structure PyClassBinding where
  className : String
  holderType : String
  baseClass : String
  initSignatures : List (List CppArgType)
  methodDefs : List String
deriving DecidableEq, Repr

/-- Embedding of `regclass_pyngraph_op_MaxPool` from
`src/pyngraph/ops/max_pool.cpp`: it registers `ngraph::op::MaxPool` as
class "MaxPool" with holder `std::shared_ptr<ngraph::op::MaxPool>` and
base `ngraph::op::RequiresTensorViewArgs`, and binds exactly two
`py::init` overloads — `(const std::shared_ptr<ngraph::Node>&, const
ngraph::Shape&, const ngraph::Strides&)` and `(const
std::shared_ptr<ngraph::Node>&, const ngraph::Shape&)` — and nothing
else. -/
def regclass_pyngraph_op_MaxPool : PyClassBinding :=
  { className := "MaxPool"
    holderType := "std::shared_ptr<ngraph::op::MaxPool>"
    baseClass := "ngraph::op::RequiresTensorViewArgs"
    initSignatures :=
      [ [CppArgType.constSharedPtrNodeRef, CppArgType.constShapeRef,
         CppArgType.constStridesRef]
      , [CppArgType.constSharedPtrNodeRef, CppArgType.constShapeRef] ]
    methodDefs := [] }

/-- Inversion: a successful construction implies the rank and positivity
preconditions and pins down the resulting node. -/
theorem construct_ok_inv (input : Node) (w s : List Nat) (node : MaxPoolNode)
    (h : construct input w s = Except.ok node) :
    3 ≤ input.output_shape.length ∧
    w.length = input.output_shape.length - 2 ∧
    s.length = input.output_shape.length - 2 ∧
    (∀ x ∈ s, 0 < x) ∧ (∀ x ∈ w, 0 < x) ∧
    node = ⟨input, w, s, poolOutputShape input.output_shape w s⟩ := by
  unfold construct at h
  split_ifs at h with h1 h2 h3 h4 h5 h6
  injection h with h
  refine ⟨by omega, by omega, by omega, ?_, ?_, h.symm⟩
  · intro x hx
    have := (List.any_eq_false.mp (Bool.not_eq_true _ ▸ h4 : _)) x hx
    simp at this
    omega
  · intro x hx
    have := (List.any_eq_false.mp (Bool.not_eq_true _ ▸ h5 : _)) x hx
    simp at this
    omega

/-- Inputs of rank < 3 are rejected first, with `InsufficientInputRank`. -/
theorem construct_insufficient_rank (input : Node) (w s : List Nat)
    (h : input.output_shape.length < 3) :
    construct input w s = Except.error MaxPoolError.InsufficientInputRank := by
  unfold construct
  rw [if_pos h]

/-- A window shape of the wrong rank is rejected with `RankMismatch`. -/
theorem construct_window_rank_mismatch (input : Node) (w s : List Nat)
    (h3 : 3 ≤ input.output_shape.length)
    (hw : w.length ≠ input.output_shape.length - 2) :
    construct input w s = Except.error MaxPoolError.RankMismatch := by
  unfold construct
  rw [if_neg (by omega), if_pos hw]

/-- Strides of the wrong rank are rejected with `RankMismatch`. -/
theorem construct_stride_rank_mismatch (input : Node) (w s : List Nat)
    (h3 : 3 ≤ input.output_shape.length)
    (hw : w.length = input.output_shape.length - 2)
    (hs : s.length ≠ input.output_shape.length - 2) :
    construct input w s = Except.error MaxPoolError.RankMismatch := by
  unfold construct
  rw [if_neg (by omega), if_neg (not_not_intro hw), if_pos hs]

/-- With the rank checks passed, a zero stride entry is rejected with
`NonPositiveParameter`. -/
theorem construct_stride_zero (input : Node) (w s : List Nat)
    (h3 : 3 ≤ input.output_shape.length)
    (hw : w.length = input.output_shape.length - 2)
    (hs : s.length = input.output_shape.length - 2)
    (h0 : 0 ∈ s) :
    construct input w s = Except.error MaxPoolError.NonPositiveParameter := by
  unfold construct
  rw [if_neg (by omega), if_neg (not_not_intro hw), if_neg (not_not_intro hs),
    if_pos (List.any_eq_true.mpr ⟨0, h0, by simp⟩)]

/-- With the rank checks passed and all strides positive, a zero window
entry is rejected with `NonPositiveParameter`. -/
theorem construct_window_zero (input : Node) (w s : List Nat)
    (h3 : 3 ≤ input.output_shape.length)
    (hw : w.length = input.output_shape.length - 2)
    (hs : s.length = input.output_shape.length - 2)
    (hsp : ∀ x ∈ s, 0 < x) (h0 : 0 ∈ w) :
    construct input w s = Except.error MaxPoolError.NonPositiveParameter := by
  unfold construct
  have hs0 : s.any (· = 0) = false :=
    List.any_eq_false.mpr fun x hx => by simpa using (hsp x hx).ne'
  rw [if_neg (by omega), if_neg (not_not_intro hw), if_neg (not_not_intro hs),
    if_neg (by simp [hs0]), if_pos (List.any_eq_true.mpr ⟨0, h0, by simp⟩)]

/-- Rewriting a list index by a proved equation. -/
theorem getElem_index_congr {α : Type _} {l : List α} {a b : Nat}
    (hab : a = b) {ha : a < l.length} : l.get ⟨a, ha⟩ = l.get ⟨b, hab ▸ ha⟩ := by
  subst hab
  rfl

/-- With rank and positivity checks passed, a window entry exceeding its
input spatial dimension is rejected with `WindowExceedsInput`. -/
theorem construct_window_exceeds_aux (input : Node) (w s : List Nat)
    (h3 : 3 ≤ input.output_shape.length)
    (hw : w.length = input.output_shape.length - 2)
    (hs : s.length = input.output_shape.length - 2)
    (hsp : ∀ x ∈ s, 0 < x) (hwp : ∀ x ∈ w, 0 < x)
    (i : Nat) (hi : i < w.length)
    (hex : input.output_shape.getD (i + 2) 0 < w.getD i 0) :
    construct input w s = Except.error MaxPoolError.WindowExceedsInput := by
  unfold construct
  have hs0 : s.any (· = 0) = false :=
    List.any_eq_false.mpr fun x hx => by simpa using (hsp x hx).ne'
  have hw0 : w.any (· = 0) = false :=
    List.any_eq_false.mpr fun x hx => by simpa using (hwp x hx).ne'
  have hi2 : i + 2 < input.output_shape.length := by omega
  have hid : i < (input.output_shape.drop 2).length := by
    simp [List.length_drop]
    omega
  have hiz : i < ((input.output_shape.drop 2).zip w).length := by
    simp [List.length_zip, List.length_drop]
    omega
  have hdi : getElem (input.output_shape.drop 2) i hid
      = getElem input.output_shape (i + 2) hi2 := by
    rw [List.getElem_drop]
    exact getElem_index_congr (by omega)
  have hex2 : getElem input.output_shape (i + 2) hi2 < getElem w i hi := by
    rw [← List.getD_eq_getElem input.output_shape 0 hi2,
      ← List.getD_eq_getElem w 0 hi]
    exact hex
  have hzip :
      ((input.output_shape.drop 2).zip w).any (fun p => p.1 < p.2) = true := by
    apply List.any_eq_true.mpr
    refine ⟨(getElem input.output_shape (i + 2) hi2, getElem w i hi), ?_,
      by simpa using hex2⟩
    exact List.mem_iff_getElem.mpr ⟨i, hiz, by rw [List.getElem_zip, hdi]⟩
  rw [if_neg (by omega), if_neg (not_not_intro hw), if_neg (not_not_intro hs),
    if_neg (by simp [hs0]), if_neg (by simp [hw0]), if_pos hzip]

/-- When every precondition holds, construction succeeds with the derived
output shape. -/
theorem construct_ok_of (input : Node) (w s : List Nat)
    (h3 : 3 ≤ input.output_shape.length)
    (hw : w.length = input.output_shape.length - 2)
    (hs : s.length = input.output_shape.length - 2)
    (hsp : ∀ x ∈ s, 0 < x) (hwp : ∀ x ∈ w, 0 < x)
    (hfit : ∀ i, i < w.length →
      w.getD i 0 ≤ input.output_shape.getD (i + 2) 0) :
    construct input w s
      = Except.ok ⟨input, w, s, poolOutputShape input.output_shape w s⟩ := by
  unfold construct
  have hs0 : s.any (· = 0) = false :=
    List.any_eq_false.mpr fun x hx => by simpa using (hsp x hx).ne'
  have hw0 : w.any (· = 0) = false :=
    List.any_eq_false.mpr fun x hx => by simpa using (hwp x hx).ne'
  have hzip :
      ((input.output_shape.drop 2).zip w).any (fun p => p.1 < p.2) = false := by
    apply List.any_eq_false.mpr
    intro p hp
    obtain ⟨j, hj, hpe⟩ := List.mem_iff_getElem.mp hp
    have hjw : j < w.length := by
      rw [List.length_zip] at hj
      omega
    have hj2 : j + 2 < input.output_shape.length := by omega
    have hjd : j < (input.output_shape.drop 2).length := by
      rw [List.length_drop]
      omega
    rw [← hpe, List.getElem_zip]
    have hdj : getElem (input.output_shape.drop 2) j hjd
        = getElem input.output_shape (j + 2) hj2 := by
      rw [List.getElem_drop]
      exact getElem_index_congr (by omega)
    have hfj := hfit j hjw
    rw [List.getD_eq_getElem _ _ hjw, List.getD_eq_getElem _ _ hj2] at hfj
    simp only [hdj]
    simp
    omega
  rw [if_neg (by omega), if_neg (not_not_intro hw), if_neg (not_not_intro hs),
    if_neg (by simp [hs0]), if_neg (by simp [hw0]), if_neg (by simp [hzip])]

/-- The first two (batch and channel) entries of the derived output shape
are the corresponding input entries. -/
theorem poolOutputShape_getD_head (inS w s : List Nat)
    (h3 : 3 ≤ inS.length) (j : Nat) (hj : j < 2) :
    (poolOutputShape inS w s).getD j 0 = inS.getD j 0 := by
  unfold poolOutputShape
  have ht : (inS.take 2).length = 2 := by
    rw [List.length_take]
    omega
  have hjt : j < (inS.take 2).length := by omega
  have hjn : j < inS.length := by omega
  rw [List.getD_append _ _ _ _ hjt, List.getD_eq_getElem _ _ hjt,
    List.getElem_take, List.getD_eq_getElem _ _ hjn]

/-- The spatial entries of the derived output shape follow the
floor-division sliding-window formula. -/
theorem poolOutputShape_getD_spatial (inS w s : List Nat)
    (h3 : 3 ≤ inS.length) (hw : w.length = inS.length - 2)
    (hs : s.length = inS.length - 2) (i : Nat) (hi : i < w.length) :
    (poolOutputShape inS w s).getD (i + 2) 0
      = (inS.getD (i + 2) 0 - w.getD i 0) / s.getD i 0 + 1 := by
  unfold poolOutputShape poolSpatial
  have ht : (inS.take 2).length = 2 := by
    rw [List.length_take]
    omega
  have hi2 : i + 2 < inS.length := by omega
  have hid : i < (inS.drop 2).length := by
    rw [List.length_drop]
    omega
  have hiz : i <
      (List.zipWith (fun p st => (p.1 - p.2) / st + 1) ((inS.drop 2).zip w) s).length := by
    rw [List.length_zipWith, List.length_zip, List.length_drop]
    simp
    omega
  rw [List.getD_append_right _ _ _ _ (by omega), ht]
  have hidx : i + 2 - 2 = i := by omega
  rw [hidx, List.getD_eq_getElem _ _ hiz, List.getElem_zipWith, List.getElem_zip]
  have hdi : getElem (inS.drop 2) i hid = getElem inS (i + 2) hi2 := by
    rw [List.getElem_drop]
    exact getElem_index_congr (by omega)
  simp only [hdi]
  rw [List.getD_eq_getElem _ _ hi2, List.getD_eq_getElem _ _ hi,
    List.getD_eq_getElem _ _ (show i < s.length by omega)]

/-- Reading the stored input spatial dimension through `drop 2`. -/
theorem getD_drop_two (inS : List Nat) (i : Nat) (hi2 : i + 2 < inS.length) :
    (inS.drop 2).getD i 0 = inS.getD (i + 2) 0 := by
  have hid : i < (inS.drop 2).length := by
    rw [List.length_drop]
    omega
  rw [List.getD_eq_getElem _ _ hid, List.getD_eq_getElem _ _ hi2,
    List.getElem_drop]
  exact getElem_index_congr (by omega)

/-- Claim C1: for every successful MaxPool construction, each spatial
entry of the output shape equals
floor((input_spatial[i] - window_shape[i]) / stride[i]) + 1; in
particular, input shape [1, 3, 10, 10] with window_shape [3, 3] and
strides [2, 2] yields output_shape [1, 3, 4, 4]. -/
theorem maxpool_output_spatial_formula :
    (∀ (input : Node) (w s : List Nat) (node : MaxPoolNode),
        construct input w s = Except.ok node →
        ∀ i, i < w.length →
          node.output_shape.getD (i + 2) 0
            = (input.output_shape.getD (i + 2) 0 - w.getD i 0)
                / s.getD i 0 + 1) ∧
    construct ⟨[1, 3, 10, 10]⟩ [3, 3] [2, 2]
      = Except.ok ⟨⟨[1, 3, 10, 10]⟩, [3, 3], [2, 2], [1, 3, 4, 4]⟩ := by
  constructor
  · intro input w s node h i hi
    obtain ⟨h3, hw, hs, _, _, hnode⟩ := construct_ok_inv input w s node h
    subst hnode
    exact poolOutputShape_getD_spatial input.output_shape w s h3 hw hs i hi
  · rfl

/-- Witness for C1: the spatial formula evaluated for the concrete
construction with input shape [1, 1, 4, 4], window [2, 2], strides
[1, 1] at spatial axis 0. -/
theorem maxpool_output_spatial_formula_witness :
    (MaxPoolNode.mk ⟨[1, 1, 4, 4]⟩ [2, 2] [1, 1]
        [1, 1, 3, 3]).output_shape.getD 2 0
      = ((Node.mk [1, 1, 4, 4]).output_shape.getD 2 0
          - ([2, 2] : List Nat).getD 0 0) / ([1, 1] : List Nat).getD 0 0 + 1 :=
  maxpool_output_spatial_formula.1 ⟨[1, 1, 4, 4]⟩ [2, 2] [1, 1]
    ⟨⟨[1, 1, 4, 4]⟩, [2, 2], [1, 1], [1, 1, 3, 3]⟩ rfl 0 (by decide)

/-- Claim C2: for every successful MaxPool construction, the batch entry
(index 0) and the channel entry (index 1) of the output shape equal the
corresponding entries of the input shape. -/
theorem maxpool_batch_channel_preserved (input : Node) (w s : List Nat)
    (node : MaxPoolNode) (h : construct input w s = Except.ok node) :
    node.output_shape.getD 0 0 = input.output_shape.getD 0 0 ∧
    node.output_shape.getD 1 0 = input.output_shape.getD 1 0 := by
  obtain ⟨h3, _, _, _, _, hnode⟩ := construct_ok_inv input w s node h
  subst hnode
  exact ⟨poolOutputShape_getD_head _ w s h3 0 (by omega),
    poolOutputShape_getD_head _ w s h3 1 (by omega)⟩

/-- Witness for C2: batch and channel pass-through on the concrete
construction with input shape [1, 3, 10, 10]. -/
theorem maxpool_batch_channel_preserved_witness :
    (MaxPoolNode.mk ⟨[1, 3, 10, 10]⟩ [3, 3] [2, 2]
        [1, 3, 4, 4]).output_shape.getD 0 0
      = (Node.mk [1, 3, 10, 10]).output_shape.getD 0 0 ∧
    (MaxPoolNode.mk ⟨[1, 3, 10, 10]⟩ [3, 3] [2, 2]
        [1, 3, 4, 4]).output_shape.getD 1 0
      = (Node.mk [1, 3, 10, 10]).output_shape.getD 1 0 :=
  maxpool_batch_channel_preserved ⟨[1, 3, 10, 10]⟩ [3, 3] [2, 2]
    ⟨⟨[1, 3, 10, 10]⟩, [3, 3], [2, 2], [1, 3, 4, 4]⟩ rfl

/-- Claim C3: the two-argument constructor is equivalent to the primary
constructor with all-ones strides of the window's rank — same resulting
output shape; in particular input shape [2, 1, 5] with window [5] and no
strides yields output shape [2, 1, 1]. -/
theorem maxpool_default_strides_equiv :
    (∀ (input : Node) (w : List Nat),
        (constructDefault input w).map MaxPoolNode.output_shape
          = (construct input w (List.replicate w.length 1)).map
              MaxPoolNode.output_shape) ∧
    constructDefault ⟨[2, 1, 5]⟩ [5]
      = Except.ok ⟨⟨[2, 1, 5]⟩, [5], [1], [2, 1, 1]⟩ :=
  ⟨fun _ _ => rfl, rfl⟩

/-- Claim C4: on every successful construction each spatial output entry
is at least 1, and a spatial axis whose window entry equals the input
spatial dimension contributes exactly 1; moreover the all-boundary case
(window equal to the whole spatial extent) constructs successfully with
every spatial output entry equal to 1. -/
theorem maxpool_output_spatial_positive_boundary (input : Node)
    (w s : List Nat) :
    (∀ node, construct input w s = Except.ok node →
      ∀ i, i < w.length →
        1 ≤ node.output_shape.getD (i + 2) 0 ∧
        (w.getD i 0 = input.output_shape.getD (i + 2) 0 →
          node.output_shape.getD (i + 2) 0 = 1)) ∧
    (3 ≤ input.output_shape.length →
      s.length = input.output_shape.length - 2 →
      (∀ x ∈ s, 0 < x) →
      (∀ x ∈ input.output_shape.drop 2, 0 < x) →
      w = input.output_shape.drop 2 →
      construct input w s
        = Except.ok ⟨input, w, s, poolOutputShape input.output_shape w s⟩ ∧
      ∀ i, i < w.length →
        (poolOutputShape input.output_shape w s).getD (i + 2) 0 = 1) := by
  constructor
  · intro node h i hi
    obtain ⟨h3, hw, hs, _, _, hnode⟩ := construct_ok_inv input w s node h
    subst hnode
    rw [poolOutputShape_getD_spatial input.output_shape w s h3 hw hs i hi]
    constructor
    · exact Nat.succ_le_succ (Nat.zero_le _)
    · intro hbd
      rw [hbd, Nat.sub_self, Nat.zero_div]
  · intro h3 hs hsp hp hweq
    subst hweq
    have hw : (input.output_shape.drop 2).length
        = input.output_shape.length - 2 := List.length_drop 2 _
    have hfit : ∀ i, i < (input.output_shape.drop 2).length →
        (input.output_shape.drop 2).getD i 0
          ≤ input.output_shape.getD (i + 2) 0 := by
      intro i hi
      rw [getD_drop_two input.output_shape i (by omega)]
    refine ⟨construct_ok_of input _ s h3 hw hs hsp hp hfit, ?_⟩
    intro i hi
    rw [poolOutputShape_getD_spatial input.output_shape _ s h3 hw hs i hi,
      getD_drop_two input.output_shape i (by omega), Nat.sub_self,
      Nat.zero_div]

/-- Witness for C4: part one at the concrete construction with input
shape [1, 1, 4, 4]; part two at the boundary case input shape [1, 1, 4]
with window [4]. -/
theorem maxpool_output_spatial_positive_boundary_witness :
    1 ≤ (MaxPoolNode.mk ⟨[1, 1, 4, 4]⟩ [2, 2] [1, 1]
        [1, 1, 3, 3]).output_shape.getD 2 0 ∧
    (poolOutputShape [1, 1, 4] [4] [1]).getD 2 0 = 1 :=
  ⟨((maxpool_output_spatial_positive_boundary ⟨[1, 1, 4, 4]⟩ [2, 2] [1, 1]).1
      ⟨⟨[1, 1, 4, 4]⟩, [2, 2], [1, 1], [1, 1, 3, 3]⟩ rfl 0 (by decide)).1,
    ((maxpool_output_spatial_positive_boundary ⟨[1, 1, 4]⟩ [4] [1]).2
      (by decide) (by decide) (by decide) (by decide) rfl).2 0 (by decide)⟩

/-- Counterexample to C5 as stated: input shape [1, 1, 5] with the
well-ranked window [6] (which exceeds the spatial dimension 5) and the
well-ranked strides [0] fails with NonPositiveParameter, not
WindowExceedsInput — the stride-positivity check runs first. -/
theorem maxpool_window_exceeds_cex :
    construct ⟨[1, 1, 5]⟩ [6] [0]
      = Except.error MaxPoolError.NonPositiveParameter ∧
    MaxPoolError.NonPositiveParameter ≠ MaxPoolError.WindowExceedsInput ∧
    3 ≤ (Node.mk [1, 1, 5]).output_shape.length ∧
    ([6] : List Nat).length = (Node.mk [1, 1, 5]).output_shape.length - 2 ∧
    ([0] : List Nat).length = (Node.mk [1, 1, 5]).output_shape.length - 2 ∧
    (Node.mk [1, 1, 5]).output_shape.getD 2 0 < ([6] : List Nat).getD 0 0 :=
  ⟨rfl, by decide, by decide, rfl, rfl, by decide⟩

/-- Claim C5 (amended): for every input of rank ≥ 3 and well-ranked
window_shape and strides whose entries are all positive, if some window
entry exceeds the corresponding input spatial dimension, construction
fails with WindowExceedsInput. -/
theorem maxpool_window_exceeds_error (input : Node) (w s : List Nat)
    (h3 : 3 ≤ input.output_shape.length)
    (hw : w.length = input.output_shape.length - 2)
    (hs : s.length = input.output_shape.length - 2)
    (hsp : ∀ x ∈ s, 0 < x) (hwp : ∀ x ∈ w, 0 < x)
    (hex : ∃ i, i < w.length ∧
      input.output_shape.getD (i + 2) 0 < w.getD i 0) :
    construct input w s = Except.error MaxPoolError.WindowExceedsInput := by
  obtain ⟨i, hi, hlt⟩ := hex
  exact construct_window_exceeds_aux input w s h3 hw hs hsp hwp i hi hlt

/-- Witness for C5 (amended): window [6] on input shape [1, 1, 5] with
strides [1] is rejected with WindowExceedsInput. -/
theorem maxpool_window_exceeds_error_witness :
    construct ⟨[1, 1, 5]⟩ [6] [1]
      = Except.error MaxPoolError.WindowExceedsInput :=
  maxpool_window_exceeds_error ⟨[1, 1, 5]⟩ [6] [1] (by decide) rfl rfl
    (by decide) (by decide) ⟨0, by decide, by decide⟩

/-- Counterexample to C6 as stated: the attempt with input shape
[1, 1, 1], window [1, 1] and the zero-valued stride [0] fails with
RankMismatch (the window rank check runs before the positivity check),
not NonPositiveParameter. -/
theorem maxpool_nonpositive_cex :
    construct ⟨[1, 1, 1]⟩ [1, 1] [0]
      = Except.error MaxPoolError.RankMismatch ∧
    MaxPoolError.RankMismatch ≠ MaxPoolError.NonPositiveParameter ∧
    (0 : Nat) ∈ ([0] : List Nat) :=
  ⟨rfl, by decide, by decide⟩

/-- Claim C6 (amended): for every construction attempt that passes the
rank checks (input rank ≥ 3, window and stride ranks equal input rank
minus 2), a zero-valued stride or window entry fails with
NonPositiveParameter. -/
theorem maxpool_nonpositive_error (input : Node) (w s : List Nat)
    (h3 : 3 ≤ input.output_shape.length)
    (hw : w.length = input.output_shape.length - 2)
    (hs : s.length = input.output_shape.length - 2)
    (h0 : 0 ∈ s ∨ 0 ∈ w) :
    construct input w s = Except.error MaxPoolError.NonPositiveParameter := by
  rcases h0 with h0 | h0
  · exact construct_stride_zero input w s h3 hw hs h0
  · by_cases hsz : ∃ x ∈ s, x = 0
    · obtain ⟨x, hx, hx0⟩ := hsz
      exact construct_stride_zero input w s h3 hw hs (hx0 ▸ hx)
    · push_neg at hsz
      exact construct_window_zero input w s h3 hw hs
        (fun x hx => Nat.pos_of_ne_zero (hsz x hx)) h0

/-- Witness for C6 (amended): a zero stride on input shape [1, 1, 4]
with window [2] is rejected with NonPositiveParameter. -/
theorem maxpool_nonpositive_error_witness :
    construct ⟨[1, 1, 4]⟩ [2] [0]
      = Except.error MaxPoolError.NonPositiveParameter :=
  maxpool_nonpositive_error ⟨[1, 1, 4]⟩ [2] [0] (by decide) rfl rfl
    (Or.inl (by decide))

/-- Claim C7: construction validates in a fixed order — input rank ≥ 3
first (InsufficientInputRank), then window rank, then stride rank (each
RankMismatch), then stride positivity, then window positivity (each
NonPositiveParameter), then window fit (WindowExceedsInput); each failed
check yields its own error kind. -/
theorem maxpool_validation_order (input : Node) (w s : List Nat) :
    (input.output_shape.length < 3 →
      construct input w s
        = Except.error MaxPoolError.InsufficientInputRank) ∧
    (3 ≤ input.output_shape.length →
      w.length ≠ input.output_shape.length - 2 →
      construct input w s = Except.error MaxPoolError.RankMismatch) ∧
    (3 ≤ input.output_shape.length →
      w.length = input.output_shape.length - 2 →
      s.length ≠ input.output_shape.length - 2 →
      construct input w s = Except.error MaxPoolError.RankMismatch) ∧
    (3 ≤ input.output_shape.length →
      w.length = input.output_shape.length - 2 →
      s.length = input.output_shape.length - 2 →
      0 ∈ s →
      construct input w s
        = Except.error MaxPoolError.NonPositiveParameter) ∧
    (3 ≤ input.output_shape.length →
      w.length = input.output_shape.length - 2 →
      s.length = input.output_shape.length - 2 →
      (∀ x ∈ s, 0 < x) → 0 ∈ w →
      construct input w s
        = Except.error MaxPoolError.NonPositiveParameter) ∧
    (3 ≤ input.output_shape.length →
      w.length = input.output_shape.length - 2 →
      s.length = input.output_shape.length - 2 →
      (∀ x ∈ s, 0 < x) → (∀ x ∈ w, 0 < x) →
      (∃ i, i < w.length ∧
        input.output_shape.getD (i + 2) 0 < w.getD i 0) →
      construct input w s
        = Except.error MaxPoolError.WindowExceedsInput) := by
  refine ⟨construct_insufficient_rank input w s,
    construct_window_rank_mismatch input w s,
    construct_stride_rank_mismatch input w s,
    construct_stride_zero input w s,
    construct_window_zero input w s, ?_⟩
  intro h3 hw hs hsp hwp hex
  obtain ⟨i, hi, hlt⟩ := hex
  exact construct_window_exceeds_aux input w s h3 hw hs hsp hwp i hi hlt

/-- Witness for C7: each validation stage exercised at its own concrete
input, all through the ordering theorem. -/
theorem maxpool_validation_order_witness :
    construct ⟨[5]⟩ [] []
      = Except.error MaxPoolError.InsufficientInputRank ∧
    construct ⟨[1, 1, 4]⟩ [2, 2] [1]
      = Except.error MaxPoolError.RankMismatch ∧
    construct ⟨[1, 1, 4]⟩ [2] [1, 1]
      = Except.error MaxPoolError.RankMismatch ∧
    construct ⟨[1, 1, 4]⟩ [2] [0]
      = Except.error MaxPoolError.NonPositiveParameter ∧
    construct ⟨[1, 1, 4]⟩ [0] [1]
      = Except.error MaxPoolError.NonPositiveParameter ∧
    construct ⟨[1, 1, 4]⟩ [5] [1]
      = Except.error MaxPoolError.WindowExceedsInput :=
  ⟨(maxpool_validation_order ⟨[5]⟩ [] []).1 (by decide),
    (maxpool_validation_order ⟨[1, 1, 4]⟩ [2, 2] [1]).2.1
      (by decide) (by decide),
    (maxpool_validation_order ⟨[1, 1, 4]⟩ [2] [1, 1]).2.2.1
      (by decide) rfl (by decide),
    (maxpool_validation_order ⟨[1, 1, 4]⟩ [2] [0]).2.2.2.1
      (by decide) rfl rfl (by decide),
    (maxpool_validation_order ⟨[1, 1, 4]⟩ [0] [1]).2.2.2.2.1
      (by decide) rfl rfl (by decide) (by decide),
    (maxpool_validation_order ⟨[1, 1, 4]⟩ [5] [1]).2.2.2.2.2
      (by decide) rfl rfl (by decide) (by decide)
      ⟨0, by decide, by decide⟩⟩

/-- Claim C8: construction is atomic — every attempt either yields a
fully initialized node (all parameter fields stored, output shape
computed) or an error and no node; the input participates unchanged. -/
theorem maxpool_construction_atomic (input : Node) (w s : List Nat) :
    (∃ node, construct input w s = Except.ok node ∧
      node.input = input ∧ node.window_shape = w ∧
      node.window_movement_strides = s ∧
      node.output_shape = poolOutputShape input.output_shape w s) ∨
    (∃ e, construct input w s = Except.error e) := by
  cases hc : construct input w s with
  | error e => exact Or.inr ⟨e, rfl⟩
  | ok node =>
    obtain ⟨_, _, _, _, _, hnode⟩ := construct_ok_inv input w s node hc
    subst hnode
    exact Or.inl ⟨_, rfl, rfl, rfl, rfl, rfl⟩

/-- Claim C9: construction is deterministic — two successful
constructions from the same input and parameters yield nodes with the
same output shape. -/
theorem maxpool_construction_deterministic (input : Node) (w s : List Nat)
    (n1 n2 : MaxPoolNode)
    (h1 : construct input w s = Except.ok n1)
    (h2 : construct input w s = Except.ok n2) :
    n1.output_shape = n2.output_shape := by
  rw [h1] at h2
  injection h2 with h
  rw [h]

/-- Witness for C9: two constructions from input shape [1, 1, 4, 4] with
window [2, 2] and strides [1, 1] agree on the output shape. -/
theorem maxpool_construction_deterministic_witness :
    (MaxPoolNode.mk ⟨[1, 1, 4, 4]⟩ [2, 2] [1, 1] [1, 1, 3, 3]).output_shape
      = (MaxPoolNode.mk ⟨[1, 1, 4, 4]⟩ [2, 2] [1, 1]
          [1, 1, 3, 3]).output_shape :=
  maxpool_construction_deterministic ⟨[1, 1, 4, 4]⟩ [2, 2] [1, 1]
    ⟨⟨[1, 1, 4, 4]⟩, [2, 2], [1, 1], [1, 1, 3, 3]⟩
    ⟨⟨[1, 1, 4, 4]⟩, [2, 2], [1, 1], [1, 1, 3, 3]⟩ rfl rfl

/-- Claim C10: the pybind11 registration exposes MaxPool as a subclass
of ngraph::op::RequiresTensorViewArgs held via std::shared_ptr, both
bound constructors take the input node first by const shared_ptr
reference, the bound signatures are exactly the two underlying C++
constructors, and no further method (hence no shape logic) is bound. -/
theorem maxpool_binding_registration :
    regclass_pyngraph_op_MaxPool.baseClass
      = "ngraph::op::RequiresTensorViewArgs" ∧
    regclass_pyngraph_op_MaxPool.holderType
      = "std::shared_ptr<ngraph::op::MaxPool>" ∧
    regclass_pyngraph_op_MaxPool.initSignatures
      = [ [CppArgType.constSharedPtrNodeRef, CppArgType.constShapeRef,
           CppArgType.constStridesRef]
        , [CppArgType.constSharedPtrNodeRef, CppArgType.constShapeRef] ] ∧
    (regclass_pyngraph_op_MaxPool.initSignatures.all fun sig =>
      sig.getD 0 CppArgType.constShapeRef
        = CppArgType.constSharedPtrNodeRef) = true ∧
    regclass_pyngraph_op_MaxPool.methodDefs = [] :=
  ⟨rfl, rfl, rfl, rfl, rfl⟩

end PyNGraph
